import Mathlib

/-!
# Verification of the air-ticket-booking agent pipeline

A shallow embedding, in Lean 4, of the local (non-network) logic of the
`air-ticket-booking-ai-agent` repository, together with theorems settling the
behavioural claims made by its specification.

Conventions of the embedding:
* Python `float` prices and percentages are modelled as `ℚ` (exact rationals).
* Python `str` values are modelled as `String` or `List Char`; Python string
  comparison is lexicographic by code point, which is the `≤` of `List Char`.
* `datetime.date` values are modelled as `ℤ` (a day count); `date + timedelta(days=k)`
  becomes integer addition.
* Python `sorted(xs, key=f)` is a stable key sort; we embed it as
  `List.insertionSort` with the key-induced relation (`sorted(..., reverse=True)`
  is the same stable sort under the flipped relation), which computes exactly
  the stable sort.
* fallible Python code (`try`/`except`, `raise`) returns `Option`/`Except`.
* network / LLM calls (Amadeus search, OpenAI formatting, exchange-rate HTTP)
  are parameters of the functions that use them.
-/

namespace AirTicket

/-! ## Generic string helpers -/

/-- Python `str.lower` restricted to the code points the repository feeds it. -/
def pyLower (s : String) : List Char :=
  s.toList.map Char.toLower

/-- Python `str.strip()` (no arguments): drop whitespace from both ends. -/
def pyStrip (s : List Char) : List Char :=
  ((s.dropWhile Char.isWhitespace).reverse.dropWhile Char.isWhitespace).reverse

/-- `pyStrip` packaged on `String`s. -/
def pyStripS (s : String) : String :=
  String.mk (pyStrip s.toList)

/-- Python `needle in haystack` on strings: substring containment. -/
def containsSub (haystack needle : List Char) : Bool :=
  haystack.tails.any (fun t => needle.isPrefixOf t)

/-- Value of a digit character. -/
def digitVal (c : Char) : ℕ :=
  c.toNat - 48

/-- Python `int` on a string of decimal digits. -/
def digitsVal (ds : List Char) : ℕ :=
  ds.foldl (fun a c => 10 * a + digitVal c) 0

/-- Python `int(s)` for the shapes arising here: optional `-` sign followed by a
nonempty digit string; anything else raises `ValueError`, i.e. `none`. -/
def pyInt? (s : List Char) : Option ℤ :=
  match s with
  | [] => none
  | '-' :: ds => if ds ≠ [] ∧ ds.all Char.isDigit then some (-(digitsVal ds : ℤ)) else none
  | ds => if ds.all Char.isDigit then some (digitsVal ds : ℤ) else none

/-- Python `s.replace("PT", "")`: a single left-to-right pass deleting each
(non-overlapping) occurrence of `PT`. -/
def removePT : List Char → List Char
  | 'P' :: 'T' :: rest => removePT rest
  | c :: rest => c :: removePT rest
  | [] => []

/-- Python `", ".join(names)`. -/
def joinComma : List String → String
  | [] => ""
  | [s] => s
  | s :: rest => s ++ ", " ++ joinComma rest

/-- Python `min` over a list of rationals (callers guarantee nonemptiness; the
`[]` value is junk). -/
def listMinQ : List ℚ → ℚ
  | [] => 0
  | x :: xs => xs.foldl min x

/-- Python `max` over a list of rationals (callers guarantee nonemptiness). -/
def listMaxQ : List ℚ → ℚ
  | [] => 0
  | x :: xs => xs.foldl max x

/-- Round-half-to-even to an integer, the rounding mode of Python `round`. -/
def roundHalfEven (x : ℚ) : ℤ :=
  let f := ⌊x⌋
  let r := x - f
  if r < 1/2 then f
  else if 1/2 < r then f + 1
  else if Even f then f else f + 1

/-- Python `round(x, 2)`. -/
def round2 (x : ℚ) : ℚ :=
  (roundHalfEven (x * 100) : ℚ) / 100

/-! ## Data model (`src/models/flight_models.py`)

`pydantic` models become structures; `Optional` fields become `Option`. -/

/-- `FlightSegment`. -/
structure FlightSegment where
  departure_airport : String
  arrival_airport : String
  departure_time : String
  arrival_time : String
  duration : String
  carrier_code : String
  carrier_name : String
  flight_number : String
  aircraft : Option String
deriving DecidableEq

/-- `FlightOffer`.  The Python field `booking_class` is rendered `bookingCls`
(the suffix is unavailable as a Lean field name here); `number_of_stops` is the
Python `int` field, hence `ℤ`. -/
structure FlightOffer where
  id : String
  price : ℚ
  currency : String
  segments : List FlightSegment
  total_duration : String
  number_of_stops : ℤ
  bookingCls : String
  available_seats : Option ℤ
deriving DecidableEq

/-- `FlightOffer.get_carrier_names`: `", ".join(set(carrier names))`.
Python's `set` iteration order is unspecified; we model the list of distinct
carrier names deterministically as `dedup` of the segment carriers. -/
def FlightOffer.get_carrier_names (o : FlightOffer) : String :=
  joinComma ((o.segments.map (·.carrier_name)).dedup)

/-- `AlternativeDateOffer`. -/
structure AlternativeDateOffer where
  departure_date : ℤ
  offers : List FlightOffer
  price_difference : ℚ
deriving DecidableEq

/-- `PassengerInfo`. -/
structure PassengerInfo where
  first_name : String
  last_name : String
  gender : String
  email : String
  phone : String
  id_type : String
  id_number : String
deriving DecidableEq

/-! ## Amadeus client (`src/api/amadeus_client.py`) -/

/-- `AmadeusClient._format_duration`: ISO-8601 `PT2H30M` to `"2h 30m"`.
`replace('PT','')`; the prefix before the first `H` is the hour count and the
text between the first and second `H` is the remainder; all `M`s are removed
from the remainder before `int`; any parse failure returns the input string. -/
def format_duration (iso_duration : String) : String :=
  let d := removePT iso_duration.toList
  let step : Option (ℤ × List Char) :=
    if d.contains 'H' then
      match pyInt? (d.takeWhile (· ≠ 'H')) with
      | none => none
      | some h => some (h, ((d.dropWhile (· ≠ 'H')).drop 1).takeWhile (· ≠ 'H'))
    else some (0, d)
  match step with
  | none => iso_duration
  | some (h, rest) =>
    if rest.contains 'M' then
      match pyInt? (rest.filter (· ≠ 'M')) with
      | none => iso_duration
      | some m => toString h ++ "h " ++ toString m ++ "m"
    else toString h ++ "h 0m"

/-- Raw segment dictionary from the provider.  Keys the parser reads with `[...]`
(raising `KeyError` when absent) are `Option`s; `duration` and
`aircraft.code` are read with `.get` and so carry their own defaults. -/
structure SegmentData where
  carrierCode : Option String
  number : Option String
  departure_at : Option String
  departure_iata : Option String
  arrival_at : Option String
  arrival_iata : Option String
  duration : Option String
  aircraft_code : Option String
deriving DecidableEq

/-- One raw itinerary: its `duration` (read with `.get`) and raw segments. -/
structure ItineraryData where
  duration : Option String
  segments : List SegmentData
deriving DecidableEq

/-- Raw flight-offer dictionary.  `price_total` is `some` exactly when
`float(offer_data['price']['total'])` succeeds; `carriers` is the
`dictionaries.carriers` mapping when that key chain is present; `cabin` is
`travelerPricings[0].fareDetailsBySegment[0].cabin`. -/
structure OfferData where
  id : String
  price_total : Option ℚ
  price_currency : Option String
  itineraries : Option (List ItineraryData)
  carriers : Option (List (String × String))
  cabin : Option String
  numberOfBookableSeats : Option ℤ
deriving DecidableEq

/-- `AmadeusClient._parse_segment`: `none` when a required key is missing
(the `except` branch). -/
def parse_segment (d : OfferData) (sd : SegmentData) : Option FlightSegment := do
  let carrier_code ← sd.carrierCode
  let flight_number ← sd.number
  let carrier_name :=
    match d.carriers with
    | none => carrier_code
    | some m => (m.lookup carrier_code).getD carrier_code
  let departure_time ← sd.departure_at
  let arrival_time ← sd.arrival_at
  let departure_airport ← sd.departure_iata
  let arrival_airport ← sd.arrival_iata
  let duration := format_duration (sd.duration.getD "PT0H0M")
  some { departure_airport, arrival_airport, departure_time, arrival_time,
         duration, carrier_code, carrier_name, flight_number,
         aircraft := sd.aircraft_code }

/-- `AmadeusClient._parse_flight_offer`.  The segment counter is incremented
once per successfully parsed segment, so it equals `segments.length`; the final
assignment is `number_of_stops = max(0, counter - 1)`.  `total_duration` is
overwritten by each itinerary in turn, so the last one wins (initial value
`"0h 0m"`). -/
def parse_flight_offer (d : OfferData) : Option FlightOffer :=
  match d.price_total, d.price_currency, d.itineraries, d.cabin,
      d.numberOfBookableSeats with
  | some price, some currency, some its, some cls, some seats =>
    let total_duration :=
      its.foldl (fun _ it => format_duration (it.duration.getD "PT0H0M")) "0h 0m"
    let segments := its.flatMap (fun it => it.segments.filterMap (parse_segment d))
    let number_of_stops : ℤ := max 0 ((segments.length : ℤ) - 1)
    some { id := d.id, price, currency, segments, total_duration, number_of_stops,
           bookingCls := cls, available_seats := some seats }
  | _, _, _, _, _ => none

/-- The body of `_search_alternative_dates`'s loop for one alternative date:
search it, and when it has offers whose cheapest price strictly beats
`min_original_price`, record the date, the first three offers of its result
list (`alt_offers[:3]`), and the price difference. -/
def alt_date_record (search : ℤ → List FlightOffer) (min_original_price : ℚ)
    (alternative_date : ℤ) : Option AlternativeDateOffer :=
  let alt_offers := search alternative_date
  if alt_offers = [] then none
  else
    let min_alt_price := listMinQ (alt_offers.map (·.price))
    if min_alt_price < min_original_price then
      some { departure_date := alternative_date,
             offers := alt_offers.take 3,
             price_difference := min_alt_price - min_original_price }
    else none

/-- `AmadeusClient._search_alternative_dates`.  `search` stands for
`_search_flights_for_date` (a network call): it maps a departure date to the
parsed offers for that date.  The loop over `day_offset in [-1, 1]` appends at
most one record per offset, which is `filterMap`. -/
def search_alternative_dates (search : ℤ → List FlightOffer) (departure_date : ℤ)
    (original_offers : List FlightOffer) : List AlternativeDateOffer :=
  if original_offers = [] then []
  else
    let min_original_price := listMinQ (original_offers.map (·.price))
    ([-1, 1] : List ℤ).filterMap (fun day_offset =>
      alt_date_record search min_original_price (departure_date + day_offset))

/-! ## Presentation agent (`src/agents/presentation_agent.py`) -/

/-- The sorting-preference categories returned by
`_detect_sorting_preference` / dispatched in `_sort_flights_by_preference`
(the `type` field of the preference dictionary; the human-readable
`description` field is display-only and not modelled). -/
inductive SortPref where
  | price_low
  | price_high
  | time_early
  | time_late
  | duration_short
  | duration_long
  | direct
  | airline
  | best_overall
deriving DecidableEq

/-- Keywords for `price_low`. -/
def kwPriceLow : List String :=
  ["cheapest", "cheap", "lowest price", "budget", "affordable", "inexpensive"]

/-- Keywords for `price_high`. -/
def kwPriceHigh : List String :=
  ["expensive", "premium", "luxury", "first class", "business class"]

/-- Keywords for `time_early`. -/
def kwTimeEarly : List String :=
  ["early morning", "early", "first flight", "morning"]

/-- Keywords for `time_late`. -/
def kwTimeLate : List String :=
  ["late", "evening", "night", "after", "pm"]

/-- Keywords for `duration_short`. -/
def kwFastest : List String :=
  ["fastest", "quickest", "shortest", "quick", "fast"]

/-- Keywords for `direct`. -/
def kwDirect : List String :=
  ["direct", "non-stop", "nonstop", "no stops", "no connections"]

/-- The fixed airline-name list checked for the `airline` category. -/
def kwAirlines : List String :=
  ["american", "delta", "united", "lufthansa", "emirates", "qatar", "singapore",
   "british airways"]

/-- `any(keyword in prompt_lower for keyword in kws)`. -/
def anyKw (prompt_lower : List Char) (kws : List String) : Bool :=
  kws.any (fun kw => containsSub prompt_lower kw.toList)

/-- `FlightPresentationAgent._detect_sorting_preference`: lowercase the request
text, then test the keyword sets in source order; the first set with a match
decides the category, and the fallthrough is `price_low`. -/
def detect_sorting_preference (user_prompt : String) : SortPref :=
  let prompt_lower := pyLower user_prompt
  if anyKw prompt_lower kwPriceLow then .price_low
  else if anyKw prompt_lower kwPriceHigh then .price_high
  else if anyKw prompt_lower kwTimeEarly then .time_early
  else if anyKw prompt_lower kwTimeLate then .time_late
  else if anyKw prompt_lower kwFastest then .duration_short
  else if anyKw prompt_lower kwDirect then .direct
  else if anyKw prompt_lower kwAirlines then .airline
  else .price_low

/-- `FlightPresentationAgent._extract_departure_time`: `"HH:MM"` cut out of the
first segment's `YYYY-MM-DDTHH:MM:SS` departure stamp (`split('T')[1][:5]`),
the stamp itself when it has no `T`, and `"00:00"` with no segments.  Kept as
`List Char` because the sort compares it as a string. -/
def extract_departure_time (o : FlightOffer) : List Char :=
  match o.segments with
  | [] => "00:00".toList
  | s :: _ =>
    let cs := s.departure_time.toList
    if cs.contains 'T' then
      ((((cs.dropWhile (· ≠ 'T')).drop 1).takeWhile (· ≠ 'T')).take 5)
    else cs

/-- `FlightPresentationAgent._parse_duration_minutes`, scanning for the regex
`(\d+)h` / `(\d+)m`: the accumulator is `some v` while inside a digit run with
value `v`; a run immediately followed by `marker` yields its value (the
leftmost such run, as `re.search` finds); any other run boundary resets. -/
def scanNumAux (marker : Char) : Option ℕ → List Char → Option ℕ
  | _, [] => none
  | run, c :: rest =>
    if c.isDigit then scanNumAux marker (some (10 * run.getD 0 + digitVal c)) rest
    else
      match run with
      | some v => if c = marker then some v else scanNumAux marker none rest
      | none => scanNumAux marker none rest

/-- `re.search(r'(\d+)<marker>', s)` returning the captured number. -/
def searchNumBefore (marker : Char) (s : List Char) : Option ℕ :=
  scanNumAux marker none s

/-- `_parse_duration_minutes`: `hours * 60 + minutes`, each component `0` when
its regex does not match. -/
def parse_duration_minutes (duration_str : String) : ℕ :=
  (searchNumBefore 'h' duration_str.toList).getD 0 * 60 +
    (searchNumBefore 'm' duration_str.toList).getD 0

/-- The lowercased carrier-names sort key used by the `airline` branch
(`x.get_carrier_names().lower()`), compared as a string. -/
def airline_key (o : FlightOffer) : List Char :=
  pyLower o.get_carrier_names

/-- `_sort_by_overall_score`'s inner `calculate_score`, written over the
candidate list it normalizes against. -/
def calculate_score (offers : List FlightOffer) (o : FlightOffer) : ℚ :=
  let prices := offers.map (·.price)
  let durations := offers.map (fun x => (parse_duration_minutes x.total_duration : ℚ))
  let min_price := listMinQ prices
  let max_price := listMaxQ prices
  let min_duration := listMinQ durations
  let max_duration := listMaxQ durations
  let price_score : ℚ :=
    if max_price = min_price then 0 else (o.price - min_price) / (max_price - min_price) * 100
  let duration : ℚ := (parse_duration_minutes o.total_duration : ℚ)
  let duration_score : ℚ :=
    if max_duration = min_duration then 0
    else (duration - min_duration) / (max_duration - min_duration) * 100
  let stops_score : ℚ := ((min (o.number_of_stops * 25) 100 : ℤ) : ℚ)
  price_score * 0.5 + duration_score * 0.3 + stops_score * 0.2

/-- Division that records Python's `ZeroDivisionError` instead of defaulting. -/
def divE (a b : ℚ) : Except String ℚ :=
  if b = 0 then .error "ZeroDivisionError" else .ok (a / b)

/-- `calculate_score` with every division checked: evaluates exactly the
divisions the Python expression evaluates (each guarded by its
`0 if max == min else` test). -/
def calculate_scoreE (offers : List FlightOffer) (o : FlightOffer) : Except String ℚ := do
  let prices := offers.map (·.price)
  let durations := offers.map (fun x => (parse_duration_minutes x.total_duration : ℚ))
  let min_price := listMinQ prices
  let max_price := listMaxQ prices
  let min_duration := listMinQ durations
  let max_duration := listMaxQ durations
  let price_score : ℚ ←
    if max_price = min_price then pure 0
    else do
      let q ← divE (o.price - min_price) (max_price - min_price)
      pure (q * 100)
  let duration : ℚ := (parse_duration_minutes o.total_duration : ℚ)
  let duration_score : ℚ ←
    if max_duration = min_duration then pure 0
    else do
      let q ← divE (duration - min_duration) (max_duration - min_duration)
      pure (q * 100)
  let stops_score : ℚ := ((min (o.number_of_stops * 25) 100 : ℤ) : ℚ)
  pure (price_score * 0.5 + duration_score * 0.3 + stops_score * 0.2)

/-- `FlightPresentationAgent._sort_by_overall_score`. -/
def sort_by_overall_score (offers : List FlightOffer) : List FlightOffer :=
  if offers = [] then offers
  else offers.insertionSort
    (fun a b => calculate_score offers a ≤ calculate_score offers b)

/-- The dispatch of `_sort_flights_by_preference` after preference detection;
each branch is `sorted(offers, key=...)` (with `reverse=True` embedded as the
flipped relation), stable by construction. -/
def sort_with_pref : SortPref → List FlightOffer → List FlightOffer
  | .price_low, offers => offers.insertionSort (fun a b => a.price ≤ b.price)
  | .price_high, offers => offers.insertionSort (fun a b => b.price ≤ a.price)
  | .time_early, offers =>
    offers.insertionSort (fun a b => extract_departure_time a ≤ extract_departure_time b)
  | .time_late, offers =>
    offers.insertionSort (fun a b => extract_departure_time b ≤ extract_departure_time a)
  | .duration_short, offers =>
    offers.insertionSort (fun a b =>
      parse_duration_minutes a.total_duration ≤ parse_duration_minutes b.total_duration)
  | .duration_long, offers =>
    offers.insertionSort (fun a b =>
      parse_duration_minutes b.total_duration ≤ parse_duration_minutes a.total_duration)
  | .direct, offers =>
    offers.insertionSort (fun a b =>
      a.number_of_stops < b.number_of_stops ∨
        (a.number_of_stops = b.number_of_stops ∧ a.price ≤ b.price))
  | .airline, offers =>
    offers.insertionSort (fun a b => airline_key a ≤ airline_key b)
  | .best_overall, offers => sort_by_overall_score offers

/-- `FlightPresentationAgent._sort_flights_by_preference`: empty input is
returned as is; otherwise detect the preference and dispatch. -/
def sort_flights_by_preference (offers : List FlightOffer) (user_prompt : String) :
    List FlightOffer :=
  if offers = [] then offers
  else sort_with_pref (detect_sorting_preference user_prompt) offers

/-- The key relation each deterministic category sorts by
(the claims quantify over these). -/
def pref_le : SortPref → FlightOffer → FlightOffer → Prop
  | .price_low => fun a b => a.price ≤ b.price
  | .price_high => fun a b => b.price ≤ a.price
  | .time_early => fun a b => extract_departure_time a ≤ extract_departure_time b
  | .time_late => fun a b => extract_departure_time b ≤ extract_departure_time a
  | .duration_short => fun a b =>
      parse_duration_minutes a.total_duration ≤ parse_duration_minutes b.total_duration
  | .duration_long => fun a b =>
      parse_duration_minutes b.total_duration ≤ parse_duration_minutes a.total_duration
  | .direct => fun a b =>
      a.number_of_stops < b.number_of_stops ∨
        (a.number_of_stops = b.number_of_stops ∧ a.price ≤ b.price)
  | .airline => fun a b => airline_key a ≤ airline_key b
  | .best_overall => fun _ _ => True

/-! ## Booking agent (`src/agents/booking_agent.py`) -/

/-- `aadhaar.replace("-", "").replace(" ", "")` applied to the stripped input:
drop every hyphen and space. -/
def aadhaar_digits_of (s : String) : List Char :=
  (pyStrip s.toList).filter (fun c => c ≠ '-' ∧ c ≠ ' ')

/-- The acceptance test: `len(aadhaar_digits) == 12 and aadhaar_digits.isdigit()`. -/
def aadhaar_valid (s : String) : Bool :=
  (aadhaar_digits_of s).length = 12 && (aadhaar_digits_of s).all Char.isDigit

/-- The re-rendering `aadhaar_digits[:4]-aadhaar_digits[4:8]-aadhaar_digits[8:]`. -/
def aadhaar_groups (s : String) : String :=
  String.mk ((aadhaar_digits_of s).take 4) ++ "-" ++
    String.mk (((aadhaar_digits_of s).drop 4).take 4) ++ "-" ++
    String.mk ((aadhaar_digits_of s).drop 8)

/-- One pass of the body of `BookingAgent._get_aadhaar_number`'s `while True`
loop on a single input line: `some formatted` when the line is accepted
(blank input takes the demo default), `none` when it is rejected and the
prompt repeats. -/
def aadhaar_step (input_line : String) : Option String :=
  if pyStrip input_line.toList = [] then some "1234-5678-9012"
  else if aadhaar_valid input_line then some (aadhaar_groups input_line)
  else none

/-- The `while True` loop of `_get_aadhaar_number` over an input stream,
returning the accepted value and the unconsumed stream.  An exhausted stream
stands for the operator pressing Enter forever, which the blank-input default
accepts immediately. -/
def aadhaar_loop : List String → String × List String
  | [] => ("1234-5678-9012", [])
  | i :: rest =>
    match aadhaar_step i with
    | some r => (r, rest)
    | none => aadhaar_loop rest

/-- The cancel keywords tested at the interactive prompts. -/
def cancel_words : List String :=
  ["cancel", "exit", "quit"]

/-- Whether a (already stripped) input line is a cancel keyword,
compared lowercased. -/
def is_cancel_word (s : String) : Bool :=
  cancel_words.any (fun w => pyLower s = w.toList)

/-- Reading one line from a finite input stream; an exhausted stream reads as
blank lines (every prompt here has a blank-input default). -/
def takeInput : List String → String × List String
  | [] => ("", [])
  | s :: rest => (s, rest)

/-- Blank-input default: `input(...).strip() or default`. -/
def orDefault (s : String) (dflt : String) : String :=
  if pyStrip s.toList = [] then dflt else String.mk (pyStrip s.toList)

/-- The ID-type menu of `_collect_passenger_info`. -/
def id_type_map : List (String × String) :=
  [("1", "AADHAAR"), ("2", "PASSPORT"), ("3", "DRIVING_LICENSE")]

/-- The body of `_collect_passenger_info`'s per-passenger loop:
`Except.error ()` is the `KeyboardInterrupt` raised when the first-name input
is a cancel keyword; otherwise the passenger and the remaining stream. -/
def collect_one_passenger (inputs : List String) :
    Except Unit (PassengerInfo × List String) :=
  let (fn0, i1) := takeInput inputs
  let fn := pyStripS fn0
  if is_cancel_word fn then .error ()
  else
    let first_name := if fn = "" then "John" else fn
    let (ln0, i2) := takeInput i1
    let last_name := orDefault ln0 "Doe"
    let (g0, i3) := takeInput i2
    let gender0 := orDefault (String.mk (g0.toList.map Char.toUpper)) "M"
    let (em0, i4) := takeInput i3
    let email := orDefault em0 "john.doe@example.com"
    let (ph0, i5) := takeInput i4
    let phone := orDefault ph0 "+91-1234567890"
    let (idc0, i6) := takeInput i5
    let id_choice := orDefault idc0 "1"
    let id_type := (id_type_map.lookup id_choice).getD "AADHAAR"
    let (id_number, i7) :=
      if id_type = "AADHAAR" then aadhaar_loop i6
      else
        let (idn0, i7) := takeInput i6
        (orDefault idn0 "DEFAULT123456", i7)
    .ok ({ first_name, last_name,
           gender := if gender0 = "M" ∨ gender0 = "F" then gender0 else "M",
           email, phone, id_type, id_number }, i7)

/-- The `for i in range(adults)` loop of `_collect_passenger_info`. -/
def collect_passengers : ℕ → List String → Except Unit (List PassengerInfo × List String)
  | 0, ins => .ok ([], ins)
  | n + 1, ins => do
    let (p, ins1) ← collect_one_passenger ins
    let (ps, ins2) ← collect_passengers n ins1
    .ok (p :: ps, ins2)

/-! ## Ticket generation agent (`src/agents/ticket_generation_agent.py`) -/

/-- The `Settings` model of `src/config.py`, field for field.  Note that it
declares **no** `gst_rate` field, although `_prepare_ticket_data` reads
`settings.gst_rate`. -/
structure Settings where
  openai_api_key : String
  openai_model : String
  amadeus_api_key : String
  amadeus_api_secret : String
  amadeus_hostname : String
  log_level : String
  environment : String
  local_currency : String
  enable_currency_conversion : Bool
  exchange_rate_api_url : String
deriving DecidableEq

/-- The attribute names `src/config.py`'s `Settings` declares. -/
def settings_field_names : List String :=
  ["openai_api_key", "openai_model", "amadeus_api_key", "amadeus_api_secret",
   "amadeus_hostname", "log_level", "environment", "local_currency",
   "enable_currency_conversion", "exchange_rate_api_url"]

/-- Reading a numeric attribute off the pydantic settings object: a name that
is not among the declared fields raises `AttributeError`.  `value_of` supplies
the value a *declared* field would carry, so no value is invented for an
undeclared one. -/
def settings_attr (value_of : String → ℚ) (name : String) : Except String ℚ :=
  if settings_field_names.contains name then .ok (value_of name)
  else .error ("AttributeError: " ++ name)

/-- The numeric part of the ticket data assembled by `_prepare_ticket_data`:
the three separately exposed price fields (`base_fare`, `gst_amount`,
`total_price`) together with the display currency. -/
structure PriceBreakdown where
  base_fare : ℚ
  display_currency : String
  gst_amount : ℚ
  total_price : ℚ
deriving DecidableEq

/-- The price portion of `TicketGenerationAgent._prepare_ticket_data` as the
program executes it: the optional conversion first (`convert amount src tgt`
models `convert_currency`, a network-backed tool; `none` is the raised
exception, caught by the fail-soft `except` that keeps the original price and
currency), then the read of `settings.gst_rate` — which sits *outside* that
`try`/`except` and, `Settings` declaring no such field, raises — then the
surcharge and total. -/
def prepare_ticket_dataE (s : Settings) (value_of : String → ℚ)
    (convert : ℚ → String → String → Option ℚ)
    (total_price : ℚ) (currency : String) : Except String PriceBreakdown := do
  let converted :=
    if s.enable_currency_conversion ∧ s.local_currency ≠ currency then
      match convert total_price currency s.local_currency with
      | some p => (p, s.local_currency)
      | none => (total_price, currency)
    else (total_price, currency)
  let display_price := converted.1
  let display_currency := converted.2
  let gst_rate ← settings_attr value_of "gst_rate"
  let gst_amount := round2 (display_price * (gst_rate / 100))
  let total_with_gst := round2 (display_price + gst_amount)
  .ok { base_fare := display_price, display_currency,
        gst_amount, total_price := total_with_gst }

/-- Modelled from the spec: the breakdown `_prepare_ticket_data` is written to
compute, with `gst_rate` standing for the "tax-surcharge percentage" of the
spec's configuration surface — the one numeric datum `src/config.py` fails to
declare (its other inputs are the declared `enable_currency_conversion` and
`local_currency` fields).  Apart from taking that rate as a given value
instead of reading the missing attribute, it is the computation of
`prepare_ticket_dataE`. -/
def prepare_price_breakdown (enable_currency_conversion : Bool)
    (local_currency : String) (gst_rate : ℚ)
    (convert : ℚ → String → String → Option ℚ)
    (total_price : ℚ) (currency : String) : PriceBreakdown :=
  let converted :=
    if enable_currency_conversion ∧ local_currency ≠ currency then
      match convert total_price currency local_currency with
      | some p => (p, local_currency)
      | none => (total_price, currency)
    else (total_price, currency)
  let display_price := converted.1
  let display_currency := converted.2
  let gst_amount := round2 (display_price * (gst_rate / 100))
  let total_with_gst := round2 (display_price + gst_amount)
  { base_fare := display_price, display_currency,
    gst_amount, total_price := total_with_gst }

/-! ## Workflow and entry point
(`src/workflows/booking_workflow.py`, `src/main.py`) -/

/-- The observable outcome of running one pipeline node: normal return,
`KeyboardInterrupt` (user cancellation), or an `Exception`. -/
inductive StepResult (σ : Type) where
  | ok (st : σ)
  | cancelled (msg : String)
  | failed (st : σ) (msg : String)
deriving DecidableEq

/-- The slice of the `BookingState` dictionary the modelled steps touch. -/
structure BState where
  user_prompt : String
  parsed_adults : Option ℕ
  selected_offer : Option FlightOffer
  passengers : List PassengerInfo
  booking_confirmed : Bool
  error : Option String
deriving DecidableEq

/-- A node wrapper in `BookingWorkflow._build_graph`: `except Exception`
records the error in the state and re-raises, while `KeyboardInterrupt`
(not an `Exception` subclass) passes through untouched. -/
def node_wrap (f : BState → StepResult BState) (st : BState) : StepResult BState :=
  match f st with
  | .failed st' e => .failed { st' with error := some e } e
  | r => r

/-- Sequential execution of the graph's edges: each node runs on the previous
node's state, and a raise aborts the remaining nodes. -/
def run_steps : List (BState → StepResult BState) → BState → StepResult BState
  | [], st => .ok st
  | f :: fs, st =>
    match node_wrap f st with
    | .ok st' => run_steps fs st'
    | r => r

/-- `BookingAgent.execute`: reads the selected offer (a missing key raises),
collects the passengers (which can raise `KeyboardInterrupt`), "books" (the
demo booking always confirms), and stores the results. -/
def booking_execute (inputs : List String) (st : BState) : StepResult BState :=
  match st.selected_offer with
  | none => .failed st "selected_offer"
  | some _ =>
    let adults := st.parsed_adults.getD 1
    match collect_passengers adults inputs with
    | .error () => .cancelled "User cancelled during passenger information collection"
    | .ok (ps, _) => .ok { st with passengers := ps, booking_confirmed := true }

/-- The external collaborators of the pipeline: the three pre-booking nodes
(LLM parsing + Amadeus search, presentation, interactive selection) as opaque
state transformers, the booking step's interactive input stream, and the two
post-booking nodes (LLM ticket rendering, notification). -/
structure WorkflowEnv where
  search_step : BState → StepResult BState
  present_step : BState → StepResult BState
  selection_step : BState → StepResult BState
  booking_inputs : List String
  ticket_step : BState → StepResult BState
  notify_step : BState → StepResult BState

/-- The fresh state `BookingWorkflow.run` starts from. -/
def initState (user_prompt : String) : BState :=
  { user_prompt, parsed_adults := none, selected_offer := none,
    passengers := [], booking_confirmed := false, error := none }

/-- `BookingWorkflow.run`: the six nodes in graph order.  Its own
`except KeyboardInterrupt: raise` / `except Exception: raise` handlers are
observational identities. -/
def workflow_run (env : WorkflowEnv) (st : BState) : StepResult BState :=
  run_steps
    [env.search_step, env.present_step, env.selection_step,
     booking_execute env.booking_inputs, env.ticket_step, env.notify_step] st

/-- What `main` prints after the run. -/
inductive MainOutcome where
  | bookingCompleted
  | bookingCancelled
  | errorPrinted (msg : String)
  | immediateGoodbye
deriving DecidableEq

/-- `main` (`src/main.py`): an immediate cancel keyword skips the run;
otherwise the workflow result is reported — `except KeyboardInterrupt` prints
the cancellation banner, `except Exception` prints the error. -/
def main_run (env : WorkflowEnv) (raw_prompt : String) : MainOutcome :=
  let user_prompt := pyStripS raw_prompt
  if is_cancel_word user_prompt then .immediateGoodbye
  else
    match workflow_run env (initState user_prompt) with
    | .ok _ => .bookingCompleted
    | .cancelled _ => .bookingCancelled
    | .failed _ e => .errorPrinted e

/-! ## Shared concrete fixtures -/

/-- A minimal offer with the given id, price, and total duration (the fields the
sort keys and the alternative-date logic read). -/
def simpleOffer (i : String) (p : ℚ) (dur : String) : FlightOffer :=
  { id := i, price := p, currency := "USD", segments := [], total_duration := dur,
    number_of_stops := 0, bookingCls := "ECONOMY", available_seats := none }

/-! ## Theorems -/

/-- `alt_date_record` ignores the search function away from its date. -/
theorem alt_date_record_congr {s1 s2 : ℤ → List FlightOffer} (m : ℚ) (dd : ℤ)
    (h : s1 dd = s2 dd) : alt_date_record s1 m dd = alt_date_record s2 m dd := by
  unfold alt_date_record
  rw [h]

/-- Characterisation of a successful `alt_date_record`. -/
theorem alt_date_record_eq_some {search : ℤ → List FlightOffer} {m : ℚ} {dd : ℤ}
    {alt : AlternativeDateOffer} :
    alt_date_record search m dd = some alt ↔
      search dd ≠ [] ∧ listMinQ ((search dd).map (·.price)) < m ∧
        alt = { departure_date := dd, offers := (search dd).take 3,
                price_difference := listMinQ ((search dd).map (·.price)) - m } := by
  by_cases h1 : search dd = []
  · simp [alt_date_record, h1]
  · by_cases h2 : listMinQ ((search dd).map (·.price)) < m
    · simp [alt_date_record, h1, h2, eq_comm]
    · simp [alt_date_record, h1, h2]

/-- Membership in the alternative-date result list, in terms of the two
adjacent-date records. -/
theorem mem_search_alternative_dates {search : ℤ → List FlightOffer} {d : ℤ}
    {orig : List FlightOffer} {alt : AlternativeDateOffer} :
    alt ∈ search_alternative_dates search d orig ↔
      orig ≠ [] ∧
        (alt_date_record search (listMinQ (orig.map (·.price))) (d + -1) = some alt ∨
         alt_date_record search (listMinQ (orig.map (·.price))) (d + 1) = some alt) := by
  unfold search_alternative_dates
  by_cases ho : orig = []
  · simp [ho]
  · simp only [ho, if_false, List.mem_filterMap, ne_eq, not_false_eq_true, true_and]
    constructor
    · rintro ⟨off, hoff, hrec⟩
      rcases List.mem_pair.mp hoff with h | h <;> subst h
      · exact Or.inl hrec
      · exact Or.inr hrec
    · rintro (h | h)
      · exact ⟨-1, List.mem_pair.mpr (Or.inl rfl), h⟩
      · exact ⟨1, List.mem_pair.mpr (Or.inr rfl), h⟩

/-- **C1 (amended).**  The alternative-date search, given a non-empty offer
list for the requested date, consults exactly the dates `d - 1` and `d + 1`
(the result does not depend on the search function anywhere else); a record is
produced for an adjacent date exactly when that date returns offers whose
cheapest price is strictly below the requested date's cheapest price; and the
offers recorded for such a date are the **first three** offers of that date's
result list in provider order (which are its three cheapest only when the
provider returns offers sorted by ascending price, as Amadeus does by
default). -/
theorem alt_search_adjacent_window (search : ℤ → List FlightOffer) (d : ℤ)
    (orig : List FlightOffer) :
    (∀ search' : ℤ → List FlightOffer,
        search' (d - 1) = search (d - 1) → search' (d + 1) = search (d + 1) →
        search_alternative_dates search' d orig =
          search_alternative_dates search d orig) ∧
    (∀ alt ∈ search_alternative_dates search d orig,
        (alt.departure_date = d - 1 ∨ alt.departure_date = d + 1) ∧
        search alt.departure_date ≠ [] ∧
        listMinQ ((search alt.departure_date).map (·.price)) <
          listMinQ (orig.map (·.price)) ∧
        alt.offers = (search alt.departure_date).take 3) ∧
    (∀ dd : ℤ, orig ≠ [] → (dd = d - 1 ∨ dd = d + 1) → search dd ≠ [] →
        listMinQ ((search dd).map (·.price)) < listMinQ (orig.map (·.price)) →
        ∃ alt ∈ search_alternative_dates search d orig,
          alt.departure_date = dd ∧ alt.offers = (search dd).take 3) := by
  have hm1 : d + -1 = d - 1 := by ring
  refine ⟨?_, ?_, ?_⟩
  · intro search' h1 h2
    unfold search_alternative_dates
    by_cases ho : orig = []
    · simp [ho]
    · simp only [ho, if_false]
      refine List.filterMap_congr ?_
      intro off hoff
      rcases List.mem_pair.mp hoff with h | h <;> subst h
      · exact alt_date_record_congr _ _ (by rw [hm1, h1])
      · exact alt_date_record_congr _ _ h2
  · intro alt halt
    rcases mem_search_alternative_dates.mp halt with ⟨-, hrec | hrec⟩ <;>
      rcases alt_date_record_eq_some.mp hrec with ⟨hne, hlt, heq⟩ <;> subst heq
    · exact ⟨Or.inl hm1, by rw [hm1] at hne ⊢; exact hne, by rw [hm1] at hlt ⊢; exact hlt,
        by rw [hm1]⟩
    · exact ⟨Or.inr rfl, hne, hlt, rfl⟩
  · intro dd ho hdd hne hlt
    refine ⟨{ departure_date := dd, offers := (search dd).take 3,
              price_difference := listMinQ ((search dd).map (·.price)) -
                listMinQ (orig.map (·.price)) },
            mem_search_alternative_dates.mpr ⟨ho, ?_⟩, rfl, rfl⟩
    rcases hdd with h | h
    · exact Or.inl (by rw [hm1, h]; exact alt_date_record_eq_some.mpr ⟨by rw [← h]; exact hne,
        by rw [← h]; exact hlt, by rw [← h]⟩)
    · exact Or.inr (by rw [h]; exact alt_date_record_eq_some.mpr ⟨by rw [← h]; exact hne,
        by rw [← h]; exact hlt, by rw [← h]⟩)

/-- Search fixture for the C1 witness: date 4 has one offer priced 30. -/
def c1wSearch : ℤ → List FlightOffer :=
  fun dd => if dd = 4 then [simpleOffer "w30" 30 "1h 0m"] else []

/-- Witness for `alt_search_adjacent_window`: for requested date 5 with one
offer priced 100, the day before (date 4, cheapest 30) produces a record whose
offers are `(c1wSearch 4).take 3`. -/
theorem alt_search_adjacent_window_witness :
    ([simpleOffer "o100" 100 "2h 0m"] : List FlightOffer) ≠ [] ∧
    ((4 : ℤ) = 5 - 1 ∨ (4 : ℤ) = 5 + 1) ∧
    c1wSearch 4 ≠ [] ∧
    listMinQ ((c1wSearch 4).map (·.price)) <
      listMinQ (([simpleOffer "o100" 100 "2h 0m"] : List FlightOffer).map (·.price)) ∧
    (∃ alt ∈ search_alternative_dates c1wSearch 5 [simpleOffer "o100" 100 "2h 0m"],
      alt.departure_date = 4 ∧ alt.offers = (c1wSearch 4).take 3) :=
  ⟨by decide, by decide, by decide, by decide,
    (alt_search_adjacent_window c1wSearch 5 [simpleOffer "o100" 100 "2h 0m"]).2.2
      4 (by decide) (by decide) (by decide) (by decide)⟩

/-- Search fixture for the C1 counterexample: the day after the requested date
returns four offers in the provider order 50, 40, 30, 10. -/
def c1cxSearch : ℤ → List FlightOffer :=
  fun dd =>
    if dd = 3 then
      [simpleOffer "a50" 50 "1h 0m", simpleOffer "a40" 40 "1h 0m",
       simpleOffer "a30" 30 "1h 0m", simpleOffer "a10" 10 "1h 0m"]
    else []

/-- **C1 counterexample.**  With requested date 2 (cheapest 100) and date 3
returning offers priced 50, 40, 30, 10 in provider order, the recorded offers
for date 3 are the first three (50, 40, 30) — not that date's three cheapest:
its cheapest offer (price 10) is not recorded, while the 50-priced offer is. -/
theorem alt_search_not_three_cheapest :
    (search_alternative_dates c1cxSearch 2 [simpleOffer "o100" 100 "2h 0m"]).map
        (·.offers) =
      [[simpleOffer "a50" 50 "1h 0m", simpleOffer "a40" 40 "1h 0m",
        simpleOffer "a30" 30 "1h 0m"]] ∧
    simpleOffer "a10" 10 "1h 0m" ∈ c1cxSearch 3 ∧
    simpleOffer "a10" 10 "1h 0m" ∉
      [simpleOffer "a50" 50 "1h 0m", simpleOffer "a40" 40 "1h 0m",
       simpleOffer "a30" 30 "1h 0m"] ∧
    ∀ o ∈ [simpleOffer "a50" 50 "1h 0m", simpleOffer "a40" 40 "1h 0m",
           simpleOffer "a30" 30 "1h 0m"],
      (simpleOffer "a10" 10 "1h 0m").price < o.price := by
  refine ⟨rfl, by decide, by decide, by decide⟩

/-- **C2 (confirmed).**  Every `AlternativeDateOffer` produced by the search
has a strictly negative recorded price difference — that difference being the
alternative date's cheapest search price minus the requested date's cheapest —
so no recorded date's cheapest price is ≥ the requested date's cheapest. -/
theorem alternative_offers_strictly_cheaper (search : ℤ → List FlightOffer)
    (d : ℤ) (orig : List FlightOffer) :
    ∀ alt ∈ search_alternative_dates search d orig,
      alt.price_difference < 0 ∧
      alt.price_difference =
        listMinQ ((search alt.departure_date).map (·.price)) -
          listMinQ (orig.map (·.price)) ∧
      listMinQ ((search alt.departure_date).map (·.price)) <
        listMinQ (orig.map (·.price)) := by
  intro alt halt
  rcases mem_search_alternative_dates.mp halt with ⟨-, hrec | hrec⟩ <;>
    rcases alt_date_record_eq_some.mp hrec with ⟨-, hlt, heq⟩ <;> subst heq <;>
    exact ⟨sub_neg.mpr hlt, rfl, hlt⟩

/-- The alternative-date record the `c1wSearch` fixture produces. -/
def c2wAlt : AlternativeDateOffer :=
  { departure_date := 4, offers := [simpleOffer "w30" 30 "1h 0m"],
    price_difference := (30 : ℚ) - 100 }

/-- Witness for `alternative_offers_strictly_cheaper` at the `c1wSearch`
fixture (requested date 5, original cheapest 100, date 4 cheapest 30). -/
theorem alternative_offers_strictly_cheaper_witness :
    c2wAlt ∈
        search_alternative_dates c1wSearch 5 [simpleOffer "o100" 100 "2h 0m"] ∧
    ((30 : ℚ) - 100 < 0 ∧
     (30 : ℚ) - 100 =
        listMinQ ((c1wSearch (4 : ℤ)).map (·.price)) -
          listMinQ (([simpleOffer "o100" 100 "2h 0m"] : List FlightOffer).map (·.price)) ∧
     listMinQ ((c1wSearch (4 : ℤ)).map (·.price)) <
        listMinQ (([simpleOffer "o100" 100 "2h 0m"] : List FlightOffer).map (·.price))) :=
  have hmem : c2wAlt ∈
        search_alternative_dates c1wSearch 5 [simpleOffer "o100" 100 "2h 0m"] :=
    List.mem_singleton.mpr rfl
  ⟨hmem, alternative_offers_strictly_cheaper c1wSearch 5
      [simpleOffer "o100" 100 "2h 0m"] _ hmem⟩

/-- **C7 (amended).**  Every offer assembled by `_parse_flight_offer` has
`number_of_stops = max 0 (segments − 1)`: never negative, and equal to
`segments − 1` whenever the offer has at least one parsed segment (the
`max(0, ...)` clamp makes the zero-segment case 0 rather than −1). -/
theorem stop_count_clamped (d : OfferData) (o : FlightOffer)
    (h : parse_flight_offer d = some o) :
    0 ≤ o.number_of_stops ∧
    o.number_of_stops = max 0 ((o.segments.length : ℤ) - 1) ∧
    (o.segments ≠ [] → o.number_of_stops = (o.segments.length : ℤ) - 1) := by
  unfold parse_flight_offer at h
  split at h
  · have ho := (Option.some_inj.mp h).symm
    subst ho
    refine ⟨le_max_left 0 _, rfl, fun hne => max_eq_right ?_⟩
    have h1 : 0 < _ := List.length_pos.mpr hne
    dsimp only at h1 ⊢
    omega
  · exact absurd h (by simp)

/-- Offer data whose single itinerary is empty: a degenerate but well-formed
provider response yielding an offer with zero segments. -/
def c7cxData : OfferData :=
  { id := "cx", price_total := some 100, price_currency := some "USD",
    itineraries := some [], carriers := none, cabin := some "ECONOMY",
    numberOfBookableSeats := some 5 }

/-- **C7 counterexample.**  The offer parsed from `c7cxData` has 0 segments
and `number_of_stops = 0`, while "segments minus one" is −1: the claimed
equality `number_of_stops = segments − 1` fails (only the clamped form holds,
and `number_of_stops` is indeed not negative). -/
theorem stop_count_not_segments_sub_one :
    (parse_flight_offer c7cxData).map (fun o => o.number_of_stops) = some 0 ∧
    (parse_flight_offer c7cxData).map (fun o => (o.segments.length : ℤ) - 1) =
      some (-1) ∧
    (0 : ℤ) ≠ -1 := by
  refine ⟨by decide, by decide, by decide⟩

/-- A raw provider segment with all required keys present. -/
def c7wSeg : SegmentData :=
  { carrierCode := some "AA", number := some "100",
    departure_at := some "2025-11-15T08:00:00", departure_iata := some "JFK",
    arrival_at := some "2025-11-15T11:30:00", arrival_iata := some "LAX",
    duration := some "PT5H30M", aircraft_code := none }

/-- Raw offer data with one itinerary of two segments. -/
def c7wData : OfferData :=
  { id := "w", price_total := some 300, price_currency := some "USD",
    itineraries := some [{ duration := some "PT5H30M", segments := [c7wSeg, c7wSeg] }],
    carriers := none, cabin := some "ECONOMY", numberOfBookableSeats := some 3 }

/-- The parsed form of `c7wSeg`. -/
def c7wSegParsed : FlightSegment :=
  { departure_airport := "JFK", arrival_airport := "LAX",
    departure_time := "2025-11-15T08:00:00", arrival_time := "2025-11-15T11:30:00",
    duration := "5h 30m", carrier_code := "AA", carrier_name := "AA",
    flight_number := "100", aircraft := none }

/-- The offer `_parse_flight_offer` assembles from `c7wData`. -/
def c7wOffer : FlightOffer :=
  { id := "w", price := 300, currency := "USD",
    segments := [c7wSegParsed, c7wSegParsed], total_duration := "5h 30m",
    number_of_stops := 1, bookingCls := "ECONOMY", available_seats := some 3 }

/-- Witness for `stop_count_clamped` on a two-segment offer (one stop). -/
theorem stop_count_clamped_witness :
    parse_flight_offer c7wData = some c7wOffer ∧
    (0 ≤ c7wOffer.number_of_stops ∧
     c7wOffer.number_of_stops = max 0 ((c7wOffer.segments.length : ℤ) - 1) ∧
     (c7wOffer.segments ≠ [] →
       c7wOffer.number_of_stops = (c7wOffer.segments.length : ℤ) - 1)) :=
  ⟨by decide, stop_count_clamped c7wData c7wOffer (by decide)⟩

/-- **C8 (amended).**  The AADHAAR input loop accepts a *nonblank* input
exactly when stripping hyphen and space separators leaves exactly 12 digits,
re-rendering it as three hyphen-joined 4-digit groups; blank input is accepted
with the demo default `1234-5678-9012`; any rejected input repeats the prompt
(the loop consumes the next line); both `123456789012` and `1234-5678-9012`
normalize to `1234-5678-9012`. -/
theorem aadhaar_validation (s : String) :
    (pyStrip s.toList ≠ [] →
      (((aadhaar_step s).isSome = true) ↔ aadhaar_valid s = true) ∧
      (∀ r, aadhaar_step s = some r → r = aadhaar_groups s)) ∧
    (aadhaar_step s = none → ∀ rest, aadhaar_loop (s :: rest) = aadhaar_loop rest) ∧
    (pyStrip s.toList = [] → aadhaar_step s = some "1234-5678-9012") ∧
    (aadhaar_step "123456789012" = some "1234-5678-9012" ∧
     aadhaar_step "1234-5678-9012" = some "1234-5678-9012") := by
  refine ⟨fun hne => ⟨?_, ?_⟩, fun hrej rest => ?_, fun hblank => ?_,
    by decide, by decide⟩
  · unfold aadhaar_step
    rw [if_neg hne]
    by_cases hv : aadhaar_valid s = true
    · rw [if_pos hv]
      simpa using hv
    · rw [if_neg hv]
      simpa using hv
  · intro r hr
    unfold aadhaar_step at hr
    rw [if_neg hne] at hr
    by_cases hv : aadhaar_valid s = true
    · rw [if_pos hv] at hr
      exact (Option.some_inj.mp hr).symm
    · rw [if_neg hv] at hr
      exact absurd hr (by simp)
  · simp [aadhaar_loop, hrej]
  · unfold aadhaar_step
    rw [if_pos hblank]

/-- Witness for `aadhaar_validation` at the nonblank input `"9876 5432 1098"`
(spaces as separators). -/
theorem aadhaar_validation_witness :
    pyStrip ("9876 5432 1098" : String).toList ≠ [] ∧
    aadhaar_step "9876 5432 1098" = some "9876-5432-1098" ∧
    (((aadhaar_step "9876 5432 1098").isSome = true) ↔
      aadhaar_valid "9876 5432 1098" = true) :=
  ⟨by decide, by decide, ((aadhaar_validation "9876 5432 1098").1 (by decide)).1⟩

/-- **C8 counterexample.**  Blank input is accepted by the loop with the demo
default `1234-5678-9012` although it has 0 digits (not 12) after separator
stripping — so "accepts exactly when the remainder is exactly 12 digits" fails
at the blank input; moreover the loop has no cancellation branch: the cancel
keyword itself is merely rejected like any invalid input. -/
theorem aadhaar_blank_input_accepted :
    aadhaar_step "" = some "1234-5678-9012" ∧
    (aadhaar_digits_of "").length = 0 ∧
    aadhaar_valid "" = false ∧
    is_cancel_word "cancel" = true ∧
    aadhaar_step "cancel" = none := by
  refine ⟨by decide, by decide, by decide, by decide, by decide⟩

/-- `round2` fixes integral amounts. -/
theorem round2_intCast (n : ℤ) : round2 (n : ℚ) = n := by
  have h1 : ((n : ℚ) * 100) = ((n * 100 : ℤ) : ℚ) := by push_cast; ring
  unfold round2 roundHalfEven
  rw [h1, Int.floor_intCast]
  simp only [sub_self]
  rw [if_pos (by norm_num : (0 : ℚ) < 1/2)]
  push_cast
  field_simp

/-- The `Settings` instance the default `.env`-free configuration yields
(`src/config.py` defaults; the required API keys are opaque strings that do
not matter here). -/
def defaultSettings : Settings :=
  { openai_api_key := "k1", openai_model := "gpt-4o-mini",
    amadeus_api_key := "k2", amadeus_api_secret := "k3",
    amadeus_hostname := "test", log_level := "INFO",
    environment := "development", local_currency := "USD",
    enable_currency_conversion := true,
    exchange_rate_api_url := "https://open.er-api.com/v6/latest" }

/-- **C9 (code_bug).**  `gst_rate` is not among the fields `src/config.py`
declares, and `_prepare_ticket_data` reads `settings.gst_rate` outside the
conversion `try`/`except`: the read raises `AttributeError` on every run —
in particular for a booked total of 100.00 USD under the default
configuration — so the breakdown the claim describes is never produced by the
program as written. -/
theorem ticket_gst_attribute_error :
    settings_field_names.contains "gst_rate" = false ∧
    (∀ (s : Settings) (value_of : String → ℚ)
        (convert : ℚ → String → String → Option ℚ) (price : ℚ) (currency : String),
      prepare_ticket_dataE s value_of convert price currency =
        .error ("AttributeError: " ++ "gst_rate")) ∧
    prepare_ticket_dataE defaultSettings (fun _ => 0) (fun _ _ _ => none) 100 "USD" =
      .error ("AttributeError: " ++ "gst_rate") :=
  ⟨rfl, fun _ _ _ _ _ => rfl, rfl⟩

/-- The intended breakdown (see `prepare_price_breakdown`) satisfies the
spec's contract: when the optional currency conversion fails, the original
price and currency are kept (fail-soft); when it succeeds, the converted
amount and the configured display currency are used; when conversion is
disabled or unnecessary the original pair is used.  In all cases the surcharge
is `round2(base × rate/100)` and the total is the separately rounded
`round2(base + surcharge)`, exposed as distinct fields; for base 100 and a
10% rate they are 10.00 and 110.00. -/
theorem intended_price_breakdown_correct (enable : Bool) (local_currency : String)
    (gst_rate : ℚ) (convert : ℚ → String → String → Option ℚ)
    (price : ℚ) (currency : String) :
    ((enable ∧ local_currency ≠ currency) →
      convert price currency local_currency = none →
      (prepare_price_breakdown enable local_currency gst_rate convert price
        currency).base_fare = price ∧
      (prepare_price_breakdown enable local_currency gst_rate convert price
        currency).display_currency = currency) ∧
    (∀ p, (enable ∧ local_currency ≠ currency) →
      convert price currency local_currency = some p →
      (prepare_price_breakdown enable local_currency gst_rate convert price
        currency).base_fare = p ∧
      (prepare_price_breakdown enable local_currency gst_rate convert price
        currency).display_currency = local_currency) ∧
    (¬ (enable ∧ local_currency ≠ currency) →
      (prepare_price_breakdown enable local_currency gst_rate convert price
        currency).base_fare = price ∧
      (prepare_price_breakdown enable local_currency gst_rate convert price
        currency).display_currency = currency) ∧
    (prepare_price_breakdown enable local_currency gst_rate convert price
        currency).gst_amount =
      round2 ((prepare_price_breakdown enable local_currency gst_rate convert price
        currency).base_fare * (gst_rate / 100)) ∧
    (prepare_price_breakdown enable local_currency gst_rate convert price
        currency).total_price =
      round2 ((prepare_price_breakdown enable local_currency gst_rate convert price
          currency).base_fare +
        (prepare_price_breakdown enable local_currency gst_rate convert price
          currency).gst_amount) ∧
    ((prepare_price_breakdown enable local_currency gst_rate convert price
        currency).base_fare = 100 → gst_rate = 10 →
      (prepare_price_breakdown enable local_currency gst_rate convert price
        currency).gst_amount = 10 ∧
      (prepare_price_breakdown enable local_currency gst_rate convert price
        currency).total_price = 110) := by
  refine ⟨fun hc hn => ?_, fun p hc hs => ?_, fun hc => ?_, rfl, rfl,
    fun h100 hrate => ?_⟩
  · simp [prepare_price_breakdown, hc, hn]
  · simp [prepare_price_breakdown, hc, hs]
  · simp [prepare_price_breakdown, hc]
  · have hg : (prepare_price_breakdown enable local_currency gst_rate convert price
        currency).gst_amount = 10 := by
      have heq : (prepare_price_breakdown enable local_currency gst_rate convert price
          currency).gst_amount =
          round2 ((prepare_price_breakdown enable local_currency gst_rate convert price
            currency).base_fare * (gst_rate / 100)) := rfl
      rw [heq, h100, hrate]
      have h10 : (100 : ℚ) * (10 / 100) = ((10 : ℤ) : ℚ) := by norm_num
      rw [h10, round2_intCast]
      norm_num
    refine ⟨hg, ?_⟩
    have heq : (prepare_price_breakdown enable local_currency gst_rate convert price
        currency).total_price =
        round2 ((prepare_price_breakdown enable local_currency gst_rate convert price
            currency).base_fare +
          (prepare_price_breakdown enable local_currency gst_rate convert price
            currency).gst_amount) := rfl
    rw [heq, h100, hg]
    have h110 : (100 : ℚ) + 10 = ((110 : ℤ) : ℚ) := by norm_num
    rw [h110, round2_intCast]
    norm_num

/-- Companion to `intended_price_breakdown_correct`: the concrete fail-soft
100.00-USD, 10% instance. -/
theorem intended_price_breakdown_instance :
    (prepare_price_breakdown true "EUR" 10 (fun _ _ _ => none) 100 "USD").base_fare =
      100 ∧
    (prepare_price_breakdown true "EUR" 10
        (fun _ _ _ => none) 100 "USD").display_currency = "USD" ∧
    (prepare_price_breakdown true "EUR" 10 (fun _ _ _ => none) 100 "USD").gst_amount =
      10 ∧
    (prepare_price_breakdown true "EUR" 10 (fun _ _ _ => none) 100 "USD").total_price =
      110 :=
  have h := intended_price_breakdown_correct true "EUR" 10 (fun _ _ _ => none) 100 "USD"
  have h1 := h.1 (by simp) rfl
  have h6 := h.2.2.2.2.2 h1.1 rfl
  ⟨h1.1, h1.2, h6.1, h6.2⟩

/-- Reading the first line of a stream is `headD ""`. -/
theorem takeInput_fst (l : List String) : (takeInput l).1 = l.headD "" := by
  cases l <;> rfl

/-- **C10 (confirmed).**  If the three pre-booking pipeline steps succeed, the
selection left an offer and at least one passenger is to be collected, then
entering a cancel keyword at the passenger first-name prompt raises the
distinguished cancellation condition (`KeyboardInterrupt`), which passes
through the node wrappers (whose `except Exception` does not catch it),
aborts the remaining steps, and is reported by the top-level runner as the
cancellation outcome — not as a completion or an error. -/
theorem cancellation_propagates (env : WorkflowEnv) (prompt : String)
    (st1 st2 st3 : BState)
    (h0 : is_cancel_word (pyStripS prompt) = false)
    (h1 : env.search_step (initState (pyStripS prompt)) = .ok st1)
    (h2 : env.present_step st1 = .ok st2)
    (h3 : env.selection_step st2 = .ok st3)
    (hoff : st3.selected_offer.isSome = true)
    (hadults : st3.parsed_adults.getD 1 ≠ 0)
    (hcancel : is_cancel_word (pyStripS (env.booking_inputs.headD "")) = true) :
    main_run env prompt = .bookingCancelled := by
  obtain ⟨o, ho⟩ := Option.isSome_iff_exists.mp hoff
  obtain ⟨n, hn⟩ := Nat.exists_eq_succ_of_ne_zero hadults
  have hbook : booking_execute env.booking_inputs st3 =
      .cancelled "User cancelled during passenger information collection" := by
    unfold booking_execute
    rw [ho, hn]
    unfold collect_passengers collect_one_passenger
    cases hins : env.booking_inputs with
    | nil =>
      rw [hins] at hcancel
      exact absurd hcancel (by decide)
    | cons i rest =>
      rw [hins] at hcancel
      simp only [List.headD_cons] at hcancel
      simp only [takeInput]
      rw [hcancel]
      rfl
  unfold main_run
  rw [if_neg (by rw [h0]; exact Bool.false_ne_true)]
  unfold workflow_run
  unfold run_steps node_wrap
  rw [h1]
  unfold run_steps node_wrap
  rw [h2]
  unfold run_steps node_wrap
  rw [h3]
  unfold run_steps node_wrap
  rw [hbook]

/-- The state the C10 witness environment's pre-booking steps produce. -/
def c10St : BState :=
  { user_prompt := "book a flight from delhi to goa", parsed_adults := some 1,
    selected_offer := some (simpleOffer "sel" 100 "2h 0m"), passengers := [],
    booking_confirmed := false, error := none }

/-- C10 witness environment: the three pre-booking steps succeed, and the
operator types `cancel` at the first passenger prompt. -/
def c10Env : WorkflowEnv :=
  { search_step := fun _ => .ok c10St, present_step := fun st => .ok st,
    selection_step := fun st => .ok st, booking_inputs := ["cancel"],
    ticket_step := fun st => .ok st, notify_step := fun st => .ok st }

/-- Witness for `cancellation_propagates` on the concrete `c10Env`. -/
theorem cancellation_propagates_witness :
    is_cancel_word (pyStripS "book a flight from delhi to goa") = false ∧
    c10Env.search_step (initState (pyStripS "book a flight from delhi to goa")) =
      .ok c10St ∧
    c10Env.present_step c10St = .ok c10St ∧
    c10Env.selection_step c10St = .ok c10St ∧
    c10St.selected_offer.isSome = true ∧
    c10St.parsed_adults.getD 1 ≠ 0 ∧
    is_cancel_word (pyStripS (c10Env.booking_inputs.headD "")) = true ∧
    main_run c10Env "book a flight from delhi to goa" = .bookingCancelled :=
  ⟨by decide, rfl, rfl, rfl, by decide, by decide, by decide,
    cancellation_propagates c10Env "book a flight from delhi to goa" c10St c10St c10St
      (by decide) rfl rfl rfl (by decide) (by decide) (by decide)⟩

instance pref_le_decidable (c : SortPref) : DecidableRel (pref_le c) :=
  match c with
  | .price_low => fun a b => inferInstanceAs (Decidable (a.price ≤ b.price))
  | .price_high => fun a b => inferInstanceAs (Decidable (b.price ≤ a.price))
  | .time_early => fun a b =>
    inferInstanceAs (Decidable (extract_departure_time a ≤ extract_departure_time b))
  | .time_late => fun a b =>
    inferInstanceAs (Decidable (extract_departure_time b ≤ extract_departure_time a))
  | .duration_short => fun a b =>
    inferInstanceAs (Decidable (parse_duration_minutes a.total_duration ≤
      parse_duration_minutes b.total_duration))
  | .duration_long => fun a b =>
    inferInstanceAs (Decidable (parse_duration_minutes b.total_duration ≤
      parse_duration_minutes a.total_duration))
  | .direct => fun a b =>
    inferInstanceAs (Decidable (a.number_of_stops < b.number_of_stops ∨
      (a.number_of_stops = b.number_of_stops ∧ a.price ≤ b.price)))
  | .airline => fun a b => inferInstanceAs (Decidable (airline_key a ≤ airline_key b))
  | .best_overall => fun _ _ => inferInstanceAs (Decidable True)

/-- Totality of the `direct` branch's `(stops, price)` lexicographic key
order. -/
theorem direct_le_total (a b : FlightOffer) :
    (a.number_of_stops < b.number_of_stops ∨
      (a.number_of_stops = b.number_of_stops ∧ a.price ≤ b.price)) ∨
    (b.number_of_stops < a.number_of_stops ∨
      (b.number_of_stops = a.number_of_stops ∧ b.price ≤ a.price)) := by
  rcases lt_trichotomy a.number_of_stops b.number_of_stops with h | h | h
  · exact Or.inl (Or.inl h)
  · rcases le_total a.price b.price with hp | hp
    · exact Or.inl (Or.inr ⟨h, hp⟩)
    · exact Or.inr (Or.inr ⟨h.symm, hp⟩)
  · exact Or.inr (Or.inl h)

/-- Transitivity of the `direct` branch's `(stops, price)` lexicographic key
order. -/
theorem direct_le_trans (a b c : FlightOffer)
    (h1 : a.number_of_stops < b.number_of_stops ∨
      (a.number_of_stops = b.number_of_stops ∧ a.price ≤ b.price))
    (h2 : b.number_of_stops < c.number_of_stops ∨
      (b.number_of_stops = c.number_of_stops ∧ b.price ≤ c.price)) :
    a.number_of_stops < c.number_of_stops ∨
      (a.number_of_stops = c.number_of_stops ∧ a.price ≤ c.price) := by
  rcases h1 with h1 | ⟨h1, hp1⟩ <;> rcases h2 with h2 | ⟨h2, hp2⟩
  · exact Or.inl (lt_trans h1 h2)
  · exact Or.inl (h2 ▸ h1)
  · exact Or.inl (h1 ▸ h2)
  · exact Or.inr ⟨h1.trans h2, hp1.trans hp2⟩

/-- **C3 (confirmed).**  For each deterministic sort category (price-low,
price-high, fastest, direct-only, airline), the sorter returns a permutation
of its input in which the category's key relation holds pairwise (hence along
consecutive elements: non-decreasing, or non-increasing for price-high, whose
relation is the flipped price order); any pair already related — in particular
any equal-key pair — keeps its original relative order (stability); and the
empty list sorts to the empty list. -/
theorem deterministic_sorts_correct (c : SortPref)
    (hc : c ∈ [SortPref.price_low, SortPref.price_high, SortPref.duration_short,
               SortPref.direct, SortPref.airline])
    (offers : List FlightOffer) :
    (sort_with_pref c offers).Perm offers ∧
    (sort_with_pref c offers).Pairwise (pref_le c) ∧
    (∀ a b, List.Sublist [a, b] offers → pref_le c a b →
      List.Sublist [a, b] (sort_with_pref c offers)) ∧
    (∀ prompt, sort_flights_by_preference [] prompt = []) := by
  fin_cases hc
  · refine ⟨List.perm_insertionSort _ _, ?_, ?_, fun prompt => rfl⟩
    · letI : IsTotal FlightOffer (pref_le .price_low) :=
        ⟨fun a b => le_total a.price b.price⟩
      letI : IsTrans FlightOffer (pref_le .price_low) :=
        ⟨fun _ _ _ h1 h2 => le_trans h1 h2⟩
      exact List.sorted_insertionSort _ _
    · exact fun a b hs hr => List.pair_sublist_insertionSort hr hs
  · refine ⟨List.perm_insertionSort _ _, ?_, ?_, fun prompt => rfl⟩
    · letI : IsTotal FlightOffer (pref_le .price_high) :=
        ⟨fun a b => le_total b.price a.price⟩
      letI : IsTrans FlightOffer (pref_le .price_high) :=
        ⟨fun _ _ _ h1 h2 => le_trans h2 h1⟩
      exact List.sorted_insertionSort _ _
    · exact fun a b hs hr => List.pair_sublist_insertionSort hr hs
  · refine ⟨List.perm_insertionSort _ _, ?_, ?_, fun prompt => rfl⟩
    · letI : IsTotal FlightOffer (pref_le .duration_short) :=
        ⟨fun a b => le_total (parse_duration_minutes a.total_duration)
          (parse_duration_minutes b.total_duration)⟩
      letI : IsTrans FlightOffer (pref_le .duration_short) :=
        ⟨fun _ _ _ h1 h2 => le_trans h1 h2⟩
      exact List.sorted_insertionSort _ _
    · exact fun a b hs hr => List.pair_sublist_insertionSort hr hs
  · refine ⟨List.perm_insertionSort _ _, ?_, ?_, fun prompt => rfl⟩
    · letI : IsTotal FlightOffer (pref_le .direct) := ⟨direct_le_total⟩
      letI : IsTrans FlightOffer (pref_le .direct) := ⟨direct_le_trans⟩
      exact List.sorted_insertionSort _ _
    · exact fun a b hs hr => List.pair_sublist_insertionSort hr hs
  · refine ⟨List.perm_insertionSort _ _, ?_, ?_, fun prompt => rfl⟩
    · letI : IsTotal FlightOffer (pref_le .airline) :=
        ⟨fun a b => le_total (airline_key a) (airline_key b)⟩

      letI : IsTrans FlightOffer (pref_le .airline) :=
        ⟨fun _ _ _ h1 h2 => le_trans h1 h2⟩
      exact List.sorted_insertionSort _ _
    · exact fun a b hs hr => List.pair_sublist_insertionSort hr hs

/-- A three-offer fixture with prices 500, 300, 700. -/
def wOffers : List FlightOffer :=
  [simpleOffer "f1" 500 "5h 0m", simpleOffer "f2" 300 "2h 30m",
   simpleOffer "f3" 700 "3h 15m"]

/-- Witness for `deterministic_sorts_correct` at the price-low category on the
500/300/700 fixture. -/
theorem deterministic_sorts_correct_witness :
    SortPref.price_low ∈ [SortPref.price_low, SortPref.price_high,
      SortPref.duration_short, SortPref.direct, SortPref.airline] ∧
    ((sort_with_pref .price_low wOffers).Perm wOffers ∧
     (sort_with_pref .price_low wOffers).Pairwise (pref_le .price_low) ∧
     (∀ a b, List.Sublist [a, b] wOffers → pref_le .price_low a b →
       List.Sublist [a, b] (sort_with_pref .price_low wOffers)) ∧
     (∀ prompt, sort_flights_by_preference [] prompt = [])) :=
  ⟨by decide, deterministic_sorts_correct SortPref.price_low (by decide) wOffers⟩

/-- The keyword sets in the priority order the detector tests them. -/
def priority_keywords : List (SortPref × List String) :=
  [(.price_low, kwPriceLow), (.price_high, kwPriceHigh), (.time_early, kwTimeEarly),
   (.time_late, kwTimeLate), (.duration_short, kwFastest), (.direct, kwDirect),
   (.airline, kwAirlines)]

/-- **C4 (confirmed).**  Preference detection scans the lowercased request
against the keyword sets in the fixed priority order price-low, price-high,
early, late, fastest, direct, airline; the first category with a matching
keyword wins (`find?` on the priority list), and with no match the category
defaults to price-low — so a keyword-free request sorts offers priced
500, 300, 700 into 300, 500, 700. -/
theorem preference_detection_priority (user_prompt : String) :
    detect_sorting_preference user_prompt =
      (((priority_keywords.find? (fun pr => anyKw (pyLower user_prompt) pr.2)).map
        Prod.fst).getD .price_low) ∧
    ((∀ pr ∈ priority_keywords, anyKw (pyLower user_prompt) pr.2 = false) →
      detect_sorting_preference user_prompt = .price_low ∧
      (sort_flights_by_preference wOffers user_prompt).map (·.price) =
        [300, 500, 700]) := by
  constructor
  · by_cases h1 : anyKw (pyLower user_prompt) kwPriceLow
    · simp [detect_sorting_preference, priority_keywords, List.find?, h1]
    · by_cases h2 : anyKw (pyLower user_prompt) kwPriceHigh
      · simp [detect_sorting_preference, priority_keywords, List.find?, h1, h2]
      · by_cases h3 : anyKw (pyLower user_prompt) kwTimeEarly
        · simp [detect_sorting_preference, priority_keywords, List.find?, h1, h2, h3]
        · by_cases h4 : anyKw (pyLower user_prompt) kwTimeLate
          · simp [detect_sorting_preference, priority_keywords, List.find?,
              h1, h2, h3, h4]
          · by_cases h5 : anyKw (pyLower user_prompt) kwFastest
            · simp [detect_sorting_preference, priority_keywords, List.find?,
                h1, h2, h3, h4, h5]
            · by_cases h6 : anyKw (pyLower user_prompt) kwDirect
              · simp [detect_sorting_preference, priority_keywords, List.find?,
                  h1, h2, h3, h4, h5, h6]
              · by_cases h7 : anyKw (pyLower user_prompt) kwAirlines
                · simp [detect_sorting_preference, priority_keywords, List.find?,
                    h1, h2, h3, h4, h5, h6, h7]
                · simp [detect_sorting_preference, priority_keywords, List.find?,
                    h1, h2, h3, h4, h5, h6, h7]
  · intro hnone
    have h1 := hnone (.price_low, kwPriceLow) (by simp [priority_keywords])
    have h2 := hnone (.price_high, kwPriceHigh) (by simp [priority_keywords])
    have h3 := hnone (.time_early, kwTimeEarly) (by simp [priority_keywords])
    have h4 := hnone (.time_late, kwTimeLate) (by simp [priority_keywords])
    have h5 := hnone (.duration_short, kwFastest) (by simp [priority_keywords])
    have h6 := hnone (.direct, kwDirect) (by simp [priority_keywords])
    have h7 := hnone (.airline, kwAirlines) (by simp [priority_keywords])
    have hdet : detect_sorting_preference user_prompt = .price_low := by
      simp [detect_sorting_preference, h1, h2, h3, h4, h5, h6, h7]
    refine ⟨hdet, ?_⟩
    unfold sort_flights_by_preference
    rw [if_neg (by decide : ¬(wOffers = []))]
    rw [hdet]
    decide

/-- Witness for `preference_detection_priority`: a request with no preference
keyword defaults to price-low and sorts 500/300/700 as 300/500/700. -/
theorem preference_detection_priority_witness :
    (∀ pr ∈ priority_keywords,
      anyKw (pyLower "please find a ticket to goa") pr.2 = false) ∧
    detect_sorting_preference "please find a ticket to goa" = .price_low ∧
    (sort_flights_by_preference wOffers "please find a ticket to goa").map (·.price) =
      [300, 500, 700] :=
  have h := (preference_detection_priority "please find a ticket to goa").2 (by decide)
  ⟨by decide, h.1, h.2⟩

/-- Monadic bind on a successful `Except` computes the continuation. -/
theorem except_ok_bind {ε α β : Type} (a : α) (f : α → Except ε β) :
    (Except.ok a : Except ε α) >>= f = f a :=
  rfl

/-- **C5 (confirmed).**  For every non-empty offer list: the checked-division
evaluation of the blended score never raises `ZeroDivisionError` (each division
is guarded by its `max == min` test, degenerating to 0) and agrees with the
total function; the score equals the spec's formula
`0.5×priceNorm + 0.3×durationNorm + 0.2×min(25×stops, 100)` with price and
duration normalized to 0–100 over the candidate set (0 when all values are
equal); and the blended sort is a permutation of the input ordered by
ascending score. -/
theorem blended_score_correct (offers : List FlightOffer) (h : offers ≠ []) :
    (∀ o, calculate_scoreE offers o = .ok (calculate_score offers o)) ∧
    (∀ o, calculate_score offers o =
      0.5 * (if listMaxQ (offers.map (·.price)) = listMinQ (offers.map (·.price))
        then 0
        else (o.price - listMinQ (offers.map (·.price))) /
          (listMaxQ (offers.map (·.price)) - listMinQ (offers.map (·.price))) * 100) +
      0.3 * (if listMaxQ (offers.map
            (fun x => (parse_duration_minutes x.total_duration : ℚ))) =
          listMinQ (offers.map (fun x => (parse_duration_minutes x.total_duration : ℚ)))
        then 0
        else ((parse_duration_minutes o.total_duration : ℚ) -
            listMinQ (offers.map (fun x => (parse_duration_minutes x.total_duration : ℚ)))) /
          (listMaxQ (offers.map (fun x => (parse_duration_minutes x.total_duration : ℚ))) -
            listMinQ (offers.map (fun x => (parse_duration_minutes x.total_duration : ℚ)))) *
          100) +
      0.2 * ((min (o.number_of_stops * 25) 100 : ℤ) : ℚ)) ∧
    (sort_by_overall_score offers).Perm offers ∧
    (sort_by_overall_score offers).Pairwise
      (fun a b => calculate_score offers a ≤ calculate_score offers b) := by
  refine ⟨fun o => ?_, fun o => ?_, ?_, ?_⟩
  · unfold calculate_scoreE calculate_score divE
    by_cases hp : listMaxQ (offers.map (·.price)) = listMinQ (offers.map (·.price))
    · by_cases hd : listMaxQ (offers.map
            (fun x => (parse_duration_minutes x.total_duration : ℚ))) =
          listMinQ (offers.map (fun x => (parse_duration_minutes x.total_duration : ℚ)))
      · simp [hp, hd, pure, Except.pure, except_ok_bind]
      · have hds := sub_ne_zero.mpr hd
        simp [hp, hd, hds, pure, Except.pure, Except.map, except_ok_bind]
    · have hps := sub_ne_zero.mpr hp
      by_cases hd : listMaxQ (offers.map
            (fun x => (parse_duration_minutes x.total_duration : ℚ))) =
          listMinQ (offers.map (fun x => (parse_duration_minutes x.total_duration : ℚ)))
      · simp [hp, hd, hps, pure, Except.pure, Except.map, except_ok_bind]
      · have hds := sub_ne_zero.mpr hd
        simp [hp, hd, hps, hds, pure, Except.pure, Except.map, Except.bind, except_ok_bind]
  · by_cases hp : listMaxQ (offers.map (·.price)) = listMinQ (offers.map (·.price)) <;>
      by_cases hd : listMaxQ (offers.map
            (fun x => (parse_duration_minutes x.total_duration : ℚ))) =
          listMinQ (offers.map (fun x => (parse_duration_minutes x.total_duration : ℚ))) <;>
        (unfold calculate_score; simp [hp, hd]; try ring)
  · unfold sort_by_overall_score
    rw [if_neg h]
    exact List.perm_insertionSort _ _
  · unfold sort_by_overall_score
    rw [if_neg h]
    letI : IsTotal FlightOffer
        (fun a b => calculate_score offers a ≤ calculate_score offers b) :=
      ⟨fun a b => le_total _ _⟩
    letI : IsTrans FlightOffer
        (fun a b => calculate_score offers a ≤ calculate_score offers b) :=
      ⟨fun _ _ _ h1 h2 => le_trans h1 h2⟩
    exact List.sorted_insertionSort _ _

/-- Witness for `blended_score_correct` on a candidate set whose prices and
durations are all identical (the degenerate-normalization edge case). -/
theorem blended_score_correct_witness :
    ([simpleOffer "s1" 100 "1h 0m", simpleOffer "s2" 100 "1h 0m"] :
      List FlightOffer) ≠ [] ∧
    (∀ o, calculate_scoreE [simpleOffer "s1" 100 "1h 0m", simpleOffer "s2" 100 "1h 0m"] o =
      .ok (calculate_score [simpleOffer "s1" 100 "1h 0m", simpleOffer "s2" 100 "1h 0m"] o)) ∧
    (sort_by_overall_score
      [simpleOffer "s1" 100 "1h 0m", simpleOffer "s2" 100 "1h 0m"]).Perm
      [simpleOffer "s1" 100 "1h 0m", simpleOffer "s2" 100 "1h 0m"] :=
  have hb := blended_score_correct
    [simpleOffer "s1" 100 "1h 0m", simpleOffer "s2" 100 "1h 0m"] (by decide)
  ⟨by decide, hb.1, hb.2.2.1⟩

/-- A scan never matches when the marker does not occur in the text. -/
theorem scanNumAux_not_mem (marker : Char) :
    ∀ (l : List Char), marker ∉ l → ∀ acc, scanNumAux marker acc l = none
  | [], _, acc => by cases acc <;> rfl
  | c :: rest, hni, acc => by
    have hc : c ≠ marker := fun he => hni (he ▸ List.mem_cons_self c rest)
    have hrest : marker ∉ rest := fun hm => hni (List.mem_cons_of_mem c hm)
    by_cases hd : c.isDigit = true
    · simp only [scanNumAux, if_pos hd]
      exact scanNumAux_not_mem marker rest hrest _
    · cases acc with
      | some v =>
        simp only [scanNumAux, if_neg hd]
        rw [if_neg hc]
        exact scanNumAux_not_mem marker rest hrest none
      | none =>
        simp only [scanNumAux, if_neg hd]
        exact scanNumAux_not_mem marker rest hrest none

/-- Inside a digit run with accumulated value `v`, a run followed by the marker
yields the run's value. -/
theorem scanNumAux_digits_marker (marker : Char) (hm : marker.isDigit = false) :
    ∀ (ds : List Char) (rest : List Char) (v : ℕ),
      (∀ c ∈ ds, c.isDigit = true) →
      scanNumAux marker (some v) (ds ++ marker :: rest) =
        some (ds.foldl (fun a c => 10 * a + digitVal c) v)
  | [], rest, v, _ => by
    rw [List.nil_append]
    simp only [scanNumAux, if_neg (show ¬(marker.isDigit = true) from by simp [hm])]
    simp
  | d :: ds, rest, v, hds => by
    have hd : d.isDigit = true := hds d (List.mem_cons_self d ds)
    rw [List.cons_append]
    simp only [scanNumAux, if_pos hd]
    exact scanNumAux_digits_marker marker hm ds rest _
      (fun c hc => hds c (List.mem_cons_of_mem d hc))

/-- A maximal digit run that hits a non-digit, non-marker boundary is skipped
whole: the scan restarts (with an empty accumulator) after the boundary. -/
theorem scanNumAux_skip (marker b : Char) (hb1 : b.isDigit = false)
    (hb2 : b ≠ marker) :
    ∀ (pre : List Char) (rest : List Char), (∀ c ∈ pre, c.isDigit = true) →
      ∀ acc, scanNumAux marker acc (pre ++ b :: rest) = scanNumAux marker none rest
  | [], rest, _, acc => by
    rw [List.nil_append]
    cases acc with
    | some v =>
      simp only [scanNumAux, if_neg (show ¬(b.isDigit = true) from by simp [hb1])]
      rw [if_neg hb2]
    | none =>
      simp only [scanNumAux, if_neg (show ¬(b.isDigit = true) from by simp [hb1])]
  | c :: pre, rest, hpre, acc => by
    have hc : c.isDigit = true := hpre c (List.mem_cons_self c pre)
    rw [List.cons_append]
    simp only [scanNumAux, if_pos hc]
    exact scanNumAux_skip marker b hb1 hb2 pre rest
      (fun x hx => hpre x (List.mem_cons_of_mem c hx)) _

/-- A nonempty digit run immediately followed by the marker is found by the
scan, with the value of the whole run. -/
theorem searchNumBefore_digits (marker : Char) (hm : marker.isDigit = false)
    (ds : List Char) (hne : ds ≠ []) (hds : ∀ c ∈ ds, c.isDigit = true)
    (rest : List Char) :
    searchNumBefore marker (ds ++ marker :: rest) = some (digitsVal ds) := by
  cases ds with
  | nil => exact absurd rfl hne
  | cons d ds =>
    have hd : d.isDigit = true := hds d (List.mem_cons_self d ds)
    unfold searchNumBefore
    rw [List.cons_append]
    simp only [scanNumAux, if_pos hd]
    exact scanNumAux_digits_marker marker hm ds rest _
      (fun c hc => hds c (List.mem_cons_of_mem d hc))


/-- A digit character is not `'h'` or `'m'`. -/
theorem digit_ne_hm {c : Char} (hc : c.isDigit = true) : c ≠ 'h' ∧ c ≠ 'm' := by
  constructor <;> rintro rfl <;> simp at hc

/-- **C6 (confirmed).**  The duration parser maps `"<H>h <M>m"` to
`H*60 + M` minutes, a missing minutes part (`"<H>h"`) to `H*60`, and a missing
hours part (`"<M>m"`) to `M`; consequently a request for the fastest flight
sorts offers with durations `"5h 0m"`, `"2h 30m"`, `"3h 15m"` into ascending
minutes `[150, 195, 300]`. -/
theorem duration_parser_correct :
    (∀ hs ms : List Char, hs ≠ [] → (∀ c ∈ hs, c.isDigit = true) →
      ms ≠ [] → (∀ c ∈ ms, c.isDigit = true) →
      parse_duration_minutes (String.mk (hs ++ 'h' :: ' ' :: (ms ++ ['m']))) =
        digitsVal hs * 60 + digitsVal ms) ∧
    (∀ hs : List Char, hs ≠ [] → (∀ c ∈ hs, c.isDigit = true) →
      parse_duration_minutes (String.mk (hs ++ ['h'])) = digitsVal hs * 60) ∧
    (∀ ms : List Char, ms ≠ [] → (∀ c ∈ ms, c.isDigit = true) →
      parse_duration_minutes (String.mk (ms ++ ['m'])) = digitsVal ms) ∧
    ((sort_flights_by_preference wOffers "get me the fastest flight").map
      (fun o => parse_duration_minutes o.total_duration) = [150, 195, 300]) := by
  refine ⟨fun hs ms hhne hhd hmne hmd => ?_, fun hs hhne hhd => ?_,
    fun ms hmne hmd => ?_, by decide⟩
  · have htl : (String.mk (hs ++ 'h' :: ' ' :: (ms ++ ['m']))).toList =
        hs ++ 'h' :: ' ' :: (ms ++ ['m']) := rfl
    unfold parse_duration_minutes
    rw [htl]
    rw [searchNumBefore_digits 'h' (by decide) hs hhne hhd (' ' :: (ms ++ ['m']))]
    have hskip1 : scanNumAux 'm' none (hs ++ 'h' :: (' ' :: (ms ++ ['m']))) =
        scanNumAux 'm' none (' ' :: (ms ++ ['m'])) :=
      scanNumAux_skip 'm' 'h' (by decide) (by decide) hs _ hhd none
    have hskip2 : scanNumAux 'm' none (([] : List Char) ++ ' ' :: (ms ++ ['m'])) =
        scanNumAux 'm' none (ms ++ ['m']) :=
      scanNumAux_skip 'm' ' ' (by decide) (by decide) [] _ (by simp) none
    unfold searchNumBefore
    rw [hskip1, List.nil_append] at *
    rw [hskip2]
    rw [show scanNumAux 'm' none (ms ++ ['m']) = some (digitsVal ms) from
      searchNumBefore_digits 'm' (by decide) ms hmne hmd []]
    rfl
  · unfold parse_duration_minutes
    rw [show (String.mk (hs ++ ['h'])).toList = hs ++ 'h' :: [] from rfl]
    rw [searchNumBefore_digits 'h' (by decide) hs hhne hhd []]
    have hnm : 'm' ∉ hs ++ 'h' :: [] := by
      intro hmem
      rcases List.mem_append.mp hmem with hin | hin
      · exact (digit_ne_hm (hhd _ hin)).2 rfl
      · simp at hin
    rw [show searchNumBefore 'm' (hs ++ 'h' :: []) = none from
      scanNumAux_not_mem 'm' _ hnm none]
    rfl
  · unfold parse_duration_minutes
    rw [show (String.mk (ms ++ ['m'])).toList = ms ++ 'm' :: [] from rfl]
    have hnh : 'h' ∉ ms ++ 'm' :: [] := by
      intro hmem
      rcases List.mem_append.mp hmem with hin | hin
      · exact (digit_ne_hm (hmd _ hin)).1 rfl
      · simp at hin
    rw [show searchNumBefore 'h' (ms ++ 'm' :: []) = none from
      scanNumAux_not_mem 'h' _ hnh none]
    rw [searchNumBefore_digits 'm' (by decide) ms hmne hmd []]
    simp

/-- Witness for `duration_parser_correct`: `"5h 30m"` parses to 330 minutes. -/
theorem duration_parser_correct_witness :
    (['5'] : List Char) ≠ [] ∧ (∀ c ∈ (['5'] : List Char), c.isDigit = true) ∧
    (['3', '0'] : List Char) ≠ [] ∧
    (∀ c ∈ (['3', '0'] : List Char), c.isDigit = true) ∧
    parse_duration_minutes (String.mk (['5'] ++ 'h' :: ' ' :: (['3', '0'] ++ ['m']))) =
      digitsVal ['5'] * 60 + digitsVal ['3', '0'] :=
  ⟨by decide, by decide, by decide, by decide,
    duration_parser_correct.1 ['5'] ['3', '0'] (by decide) (by decide)
      (by decide) (by decide)⟩

end AirTicket
